import Mathlib

/-!
# Verification of the 3D-Model-Maker generation orchestration core

Shallow embedding of `src/index.tsx` (the `App` component): the shared
React state and refs become an explicit `AppState` record, the async
`performGeneration` function becomes a coroutine split at its `await`
suspension points (`Phase` / `segment`), and the user-facing handlers
(`startGeneration`, `handleCancelGeneration`, `rerunImageGenerationStep`,
`reset`, `handleFileChange`, `removeFile`, `handleUrlFetch`) become
functions on `AppState`.  A system-level step relation (`stepFn` /
`Reachable`) interleaves coroutine resumptions, timer ticks and user
events, matching the single-threaded cooperative concurrency of the
source.

Modelling conventions:
* JS numbers used as clocks (`performance.now()`) are `Nat` milliseconds;
  a step's `time` field is the elapsed duration in milliseconds (the
  source stores `((ms)/1000).toFixed(2)`, a fixed presentation of the
  same value).
* JS truthiness tests on `number | null` refs (`stepStartRef.current`,
  `generationStartRef.current`, `!productUrl`) are embedded as
  `Option.getD 0 ≠ 0` / emptiness tests, which agree with `null` and `0`
  being falsy.
* `setInterval`/`clearInterval` are modelled by a pool of live timers
  (`liveTimers`, pairs of a fresh timer id and the captured step index)
  plus the single stored handle `timerIntervalRef`, exactly mirroring
  which callbacks can still fire.
* The best-effort `PUT` to `falCancelUrl` in `handleCancelGeneration` /
  `rerunImageGenerationStep` neither reads nor writes any modelled state
  (its failures are only logged), so those handlers are modelled as
  single steps.
* Network/DOM responses are supplied by the environment (`Resp`), and
  the requests a synchronous segment issues are recorded (`Request`).
-/

namespace M3D

/-- Step status strings of `src/index.tsx` (`'pending' | 'loading' | 'done' | 'error'`). -/
inductive StepStatus where
  | pending
  | loading
  | done
  | error
deriving DecidableEq, Repr

/-- One entry of the `steps` state array (src/index.tsx line 38-41):
`{ name, status, time }`, with `time` as elapsed milliseconds. -/
structure Step where
  name : String
  status : StepStatus
  time : Nat
deriving DecidableEq, Repr

/-- `{ label, url }` produced by `generateSingleView` (src/index.tsx line 275). -/
structure GeneratedImage where
  label : String
  url : String
deriving DecidableEq, Repr

/-- The shared mutable state of the `App` component: all `useState` cells and
the `useRef` cells relevant to the generation core (src/index.tsx lines 13-34),
plus the modelled pool of live `setInterval` timers. -/
structure AppState where
  files : List String
  isLoading : Bool
  error : Option String
  modelUrl : Option String
  steps : List Step
  generatedImages : List GeneratedImage
  totalGenerationTime : Option Nat
  generationId : Nat
  falCancelUrl : Option String
  timerIntervalRef : Option Nat
  stepStart : Option Nat
  generationStart : Option Nat
  liveTimers : List (Nat × Nat)
  nextTimerId : Nat
  productUrl : String
  isFetchingUrl : Bool
  urlError : Option String
deriving DecidableEq, Repr

/-- The state on initial load: every `useState` starts at its initial value
(src/index.tsx lines 13-34); in particular `steps` is the EMPTY list. -/
def initApp : AppState where
  files := []
  isLoading := false
  error := none
  modelUrl := none
  steps := []
  generatedImages := []
  totalGenerationTime := none
  generationId := 0
  falCancelUrl := none
  timerIntervalRef := none
  stepStart := none
  generationStart := none
  liveTimers := []
  nextTimerId := 0
  productUrl := ""
  isFetchingUrl := false
  urlError := none

/-- `initialSteps` (src/index.tsx lines 38-41). -/
def initialSteps : List Step :=
  [⟨"Generate View Images", StepStatus.pending, 0⟩,
   ⟨"Generate 3D Model", StepStatus.pending, 0⟩]

/-- Replace the element at an index by `f` of it, exactly the effect of
`const newSteps = [...prev]; newSteps[index] = mutate(newSteps[index])`. -/
def updAt (f : Step → Step) : Nat → List Step → List Step
  | _, [] => []
  | 0, st :: rest => f st :: rest
  | i + 1, st :: rest => st :: updAt f i rest

/-- Index-aware map, used for the `steps.map((s, i) => ...)` updates. -/
def mapWithIdxFrom (f : Nat → Step → Step) : Nat → List Step → List Step
  | _, [] => []
  | k, st :: rest => f k st :: mapWithIdxFrom f (k + 1) rest

def mapWithIdx (f : Nat → Step → Step) (l : List Step) : List Step :=
  mapWithIdxFrom f 0 l

/-- `clearInterval(timerIntervalRef.current); timerIntervalRef.current = null`
(src/index.tsx lines 45-48 and 392-395): deregisters the stored timer. -/
def clearTimer (a : AppState) : AppState :=
  match a.timerIntervalRef with
  | none => a
  | some t =>
      { a with liveTimers := a.liveTimers.filter (fun p => p.1 != t),
               timerIntervalRef := none }

/-- `updateStep` (src/index.tsx lines 44-80), evaluated at clock `now`.
On `loading`: records the step start, resets the step's time, and starts a
fresh interval timer for that index.  On `done`/`error`: freezes the time to
the elapsed value when the step was `loading` (and the start ref is truthy),
sets the status, and clears the step-start ref.  In both cases any stored
timer is stopped first. -/
def updateStep (now : Nat) (index : Nat) (newStatus : StepStatus) (a : AppState) : AppState :=
  let a := clearTimer a
  if newStatus = StepStatus.loading then
    let a :=
      { a with stepStart := some now,
               steps := updAt (fun st => { st with status := StepStatus.loading, time := 0 })
                 index a.steps }
    { a with timerIntervalRef := some a.nextTimerId,
             liveTimers := a.liveTimers ++ [(a.nextTimerId, index)],
             nextTimerId := a.nextTimerId + 1 }
  else
    { a with
        steps := updAt (fun st =>
            if st.status = StepStatus.loading ∧ a.stepStart.getD 0 ≠ 0 then
              { st with time := now - a.stepStart.getD 0, status := newStatus }
            else
              { st with status := newStatus })
          index a.steps,
        stepStart := none }

/-- The `setInterval` callback installed by `updateStep` for step `index`
(src/index.tsx lines 59-68), fired at clock `now`: bails out if the step-start
ref is `null`, otherwise rewrites the elapsed time of step `index` while it is
still `loading`. -/
def timerTick (now : Nat) (index : Nat) (a : AppState) : AppState :=
  match a.stepStart with
  | none => a
  | some t0 =>
      { a with steps := mapWithIdx (fun i st =>
          if i = index ∧ st.status = StepStatus.loading then
            { st with time := now - t0 }
          else st) a.steps }

/-- JS `Array.prototype.slice(0, e)` with a possibly negative end index
(src/index.tsx line 84: `slice(0, 3 - files.length)`). -/
def jsSliceEnd {α : Type} (l : List α) (e : Int) : List α :=
  l.take (if e < 0 then ((l.length : Int) + e).toNat else e.toNat)

/-- `handleFileChange` (src/index.tsx lines 82-87). -/
def handleFileChange (selected : Option (List String)) (a : AppState) : AppState :=
  match selected with
  | none => a
  | some sel =>
      let newFiles := jsSliceEnd sel (3 - (a.files.length : Int))
      { a with files := a.files ++ newFiles }

/-- `removeFile` (src/index.tsx lines 105-107): `prev.filter((_, i) => i !== index)`. -/
def removeAt {α : Type} : Nat → List α → List α
  | _, [] => []
  | 0, _ :: rest => rest
  | i + 1, x :: rest => x :: removeAt i rest

def removeFile (index : Nat) (a : AppState) : AppState :=
  { a with files := removeAt index a.files }

/-- `resetStateForGeneration` (src/index.tsx lines 399-408). -/
def resetStateForGeneration (a : AppState) : AppState :=
  { a with isLoading := true, error := none, modelUrl := none,
           steps := initialSteps, generatedImages := [],
           falCancelUrl := none, totalGenerationTime := none,
           generationStart := none }

/-- `reset` (src/index.tsx lines 410-416); the DOM viewer cleanup has no
modelled state. -/
def reset (a : AppState) : AppState :=
  let a := { a with files := [] }
  let a := resetStateForGeneration a
  { a with isLoading := false }

/-- `handleCancelGeneration` (src/index.tsx lines 386-397): bump the
generation id, best-effort remote cancel (no modelled state effect), stop any
stored timer, then `reset()`. -/
def handleCancelGeneration (a : AppState) : AppState :=
  let a := { a with generationId := a.generationId + 1 }
  let a := clearTimer a
  reset a

/-- `handleUrlFetch` entry (src/index.tsx lines 120-132): guard
(`!productUrl || isFetchingUrl || files.length >= 3`), `new URL` validity
check (outcome `valid` supplied by the environment), then marks the fetch
as in flight.  Returns whether an asynchronous fetch actually began. -/
def urlFetchBegin (valid : Bool) (a : AppState) : AppState × Bool :=
  if a.productUrl = "" ∨ a.isFetchingUrl ∨ 3 ≤ a.files.length then (a, false)
  else if ¬ valid then ({ a with urlError := some "Please enter a valid URL." }, false)
  else ({ a with isFetchingUrl := true, urlError := none, error := none }, true)

/-- Completion of `handleUrlFetch` (src/index.tsx lines 134-193): on success
`setFiles(prev => [...prev, imageFile].slice(0, 3))` and the URL box is
cleared; on any failure the message is surfaced in `urlError`
(`e.message || "An unexpected error occurred while fetching the image."`);
the `finally` clears the in-flight flag. -/
def urlFetchResolve (outcome : Except String String) (a : AppState) : AppState :=
  match outcome with
  | Except.ok f =>
      { a with files := (a.files ++ [f]).take 3, productUrl := "",
               isFetchingUrl := false }
  | Except.error msg =>
      { a with urlError := some (if msg = "" then
                 "An unexpected error occurred while fetching the image." else msg),
               isFetchingUrl := false }

/-!
## The `performGeneration` coroutine

`performGeneration` (src/index.tsx lines 254-361) is an async function.  We
split it at its `await` suspension points: `Phase` names the pending await,
`Resp` is the value the environment settles it with, and `segment` is the
synchronous code run between one resumption and the next suspension (or the
end of the function, `catch`/`finally` included). -/

/-- Result of one of the three `generateSingleView` calls, as settled by the
remote image generator: an inline image part, a response without an image
part, or a rejected request. -/
inductive ViewResp where
  | img (mime data : String)
  | empty
  | reject (msg : String)
deriving DecidableEq, Repr

/-- Body of `submitResult` (src/index.tsx lines 313-315). -/
structure SubmitUrls where
  cancel_url : String
  status_url : String
  response_url : String
deriving DecidableEq, Repr

/-- Body of `pollBody` (src/index.tsx line 321): `{status, logs?}` with the
log entries' `message` fields. -/
structure PollBody where
  status : String
  logs : Option (List String)
deriving DecidableEq, Repr

/-- Body of `resultData` (src/index.tsx line 325):
`{status?, model_mesh?: {url?}, logs?}`; `model_mesh_url = none` covers
`model_mesh?.url == null` (absent, null or undefined). -/
structure ResultBody where
  status : Option String
  model_mesh_url : Option String
  logs : Option (List String)
deriving DecidableEq, Repr

/-- The pending `await` of an in-flight `performGeneration` run. -/
inductive Phase where
  | awaitFileParts
  | awaitViews
  | awaitResize
  | awaitSubmit
  | awaitSubmitText
  | awaitSubmitJson
  | awaitPoll (statusUrl responseUrl : String)
  | awaitPollJson (statusUrl responseUrl : String)
  | awaitResult (statusUrl responseUrl : String)
  | awaitResultJson (statusUrl responseUrl : String)
  | awaitSleep (statusUrl responseUrl : String)
deriving DecidableEq, Repr

instance {ε α : Type} [DecidableEq ε] [DecidableEq α] : DecidableEq (Except ε α) :=
  fun x y =>
    match x, y with
    | Except.ok a, Except.ok b =>
        if h : a = b then isTrue (by rw [h]) else isFalse (by simp [h])
    | Except.error a, Except.error b =>
        if h : a = b then isTrue (by rw [h]) else isFalse (by simp [h])
    | Except.ok _, Except.error _ => isFalse (by simp)
    | Except.error _, Except.ok _ => isFalse (by simp)

/-- The value the environment settles the pending await with. -/
inductive Resp where
  | fileParts
  | views (front back left : ViewResp)
  | resized (front back left : Except String String)
  | submit (r : Except String Bool)
  | text (body : String)
  | submitJson (r : Except String SubmitUrls)
  | pollFetch (r : Except String Unit)
  | pollJson (r : Except String PollBody)
  | resultFetch (r : Except String Unit)
  | resultJson (r : Except String ResultBody)
  | sleepDone
deriving DecidableEq, Repr

/-- A network request issued by a synchronous segment. -/
inductive Request where
  | viewGen (view : String)
  | resizeReq (url : String)
  | submitPost (front back left : String)
  | statusGet (url : String)
  | resultGet (url : String)
deriving DecidableEq, Repr

/-- Outcome of running one synchronous segment: the state after it, the next
pending await (`none` when the coroutine has finished, `finally` included),
and the network requests it issued. -/
structure SegOut where
  state : AppState
  next : Option Phase
  requests : List Request
deriving DecidableEq, Repr

/-- JS `str.charAt(0).toUpperCase() + str.slice(1)` (src/index.tsx line 275). -/
def jsCapitalize (s : String) : String :=
  match s.toList with
  | [] => ""
  | c :: cs => String.mk (c.toUpper :: cs)

/-- Outcome of `generateSingleView` for one view (src/index.tsx lines
263-276): no inline image part throws
`Gemini failed to generate the <view>.`, otherwise the labeled data URI is
returned. -/
def viewOutcome (viewName : String) : ViewResp → Except String GeneratedImage
  | ViewResp.img mime data =>
      Except.ok ⟨jsCapitalize viewName, "data:" ++ mime ++ ";base64," ++ data⟩
  | ViewResp.empty => Except.error ("Gemini failed to generate the " ++ viewName ++ ".")
  | ViewResp.reject msg => Except.error msg

/-- `Promise.all` over three already-settled promises: the first listed
rejection wins (the source observes whichever rejection settles first; the
claims do not depend on which). -/
def promiseAll3 {α : Type} : Except String α → Except String α → Except String α →
    Except String (α × α × α)
  | Except.ok x, Except.ok y, Except.ok z => Except.ok (x, y, z)
  | Except.error m, _, _ => Except.error m
  | Except.ok _, Except.error m, _ => Except.error m
  | Except.ok _, Except.ok _, Except.error m => Except.error m

/-- `logs?.map(log => log.message).join('\n') || fallback`
(src/index.tsx lines 327 and 332): an absent logs array or an empty joined
string (both falsy) yield the fallback. -/
def logsMsg (logs : Option (List String)) (fallback : String) : String :=
  match logs with
  | none => fallback
  | some l =>
      let j := String.intercalate "\n" l
      if j = "" then fallback else j

/-- `prev.map(s => s.status === 'loading' ? { ...s, status: 'error' } : s)`
(src/index.tsx line 351). -/
def markLoadingError (l : List Step) : List Step :=
  l.map (fun st =>
    if st.status = StepStatus.loading then { st with status := StepStatus.error } else st)

/-- The `catch` block (src/index.tsx lines 347-354) as run by a continuation
whose captured id is still current: store the message
(`e.message || "An unknown error occurred."`), mark every `loading` step
`error`, and clear the generation-start ref when it is truthy. -/
def applyCatch (msg : String) (a : AppState) : AppState :=
  { a with
      error := some (if msg = "" then "An unknown error occurred." else msg),
      steps := markLoadingError a.steps,
      generationStart :=
        if a.generationStart.getD 0 ≠ 0 then none else a.generationStart }

/-- The `finally` block (src/index.tsx lines 355-360): only a continuation
whose captured id is still current resets the busy flag and drops the
retained cancel handle. -/
def runFinally (g : Nat) (a : AppState) : AppState :=
  if a.generationId = g then { a with isLoading := false, falCancelUrl := none } else a

/-- A `throw` inside the `try` as seen by the coroutine with captured id `g`:
the `catch` bails out when superseded (src/index.tsx line 348), then the
`finally` runs. -/
def throwPath (g : Nat) (msg : String) (a : AppState) : AppState :=
  let a := if a.generationId = g then applyCatch msg a else a
  runFinally g a

/-- The success tail of `performGeneration` (src/index.tsx lines 338-345
plus the `finally`): finish step 1, publish the mesh URL, and record the
total elapsed time when the generation-start ref is truthy. -/
def finishSuccess (now : Nat) (g : Nat) (mesh : Option String) (a : AppState) : AppState :=
  let a := updateStep now 1 StepStatus.done a
  let a := { a with modelUrl := mesh }
  let a :=
    if a.generationStart.getD 0 ≠ 0 then
      { a with totalGenerationTime := some (now - a.generationStart.getD 0),
               generationStart := none }
    else a
  runFinally g a

/-- The synchronous prefix of `performGeneration` (src/index.tsx lines
255-261): increment the generation id, capture it, set step 0 `loading`, and
suspend on the file-encoding promises.  Returns the captured id and first
pending await. -/
def performGenerationStart (now : Nat) (a : AppState) : AppState × Nat × Phase :=
  let a := { a with generationId := a.generationId + 1 }
  let g := a.generationId
  let a := updateStep now 0 StepStatus.loading a
  (a, g, Phase.awaitFileParts)

/-- One synchronous segment of `performGeneration`: the coroutine with
captured id `g`, suspended at `p`, resumes in state `a` at clock `now` with
response `r`.  `none` means `r` is not a possible settlement of `p`.
Each case is annotated with the source lines it embeds. -/
def segment (now : Nat) (g : Nat) (p : Phase) (r : Resp) (a : AppState) : Option SegOut :=
  match p, r with
  | Phase.awaitFileParts, Resp.fileParts =>
      -- lines 263-284: build the three view promises, suspend on Promise.all
      some ⟨a, some Phase.awaitViews,
        [Request.viewGen "front view", Request.viewGen "back view",
         Request.viewGen "left side view"]⟩
  | Phase.awaitViews, Resp.views f b l =>
      match promiseAll3 (viewOutcome "front view" f) (viewOutcome "back view" b)
          (viewOutcome "left side view" l) with
      | Except.error msg => some ⟨throwPath g msg a, none, []⟩
      | Except.ok (gf, gb, gl) =>
          -- line 285: staleness check
          if a.generationId ≠ g then some ⟨runFinally g a, none, []⟩
          else
            -- lines 287-292: publish results, finish step 0, start step 1,
            -- create the three resize promises
            let a := { a with generatedImages := [gf, gb, gl] }
            let a := updateStep now 0 StepStatus.done a
            let a := updateStep now 1 StepStatus.loading a
            some ⟨a, some Phase.awaitResize,
              [Request.resizeReq gf.url, Request.resizeReq gb.url, Request.resizeReq gl.url]⟩
  | Phase.awaitResize, Resp.resized r1 r2 r3 =>
      match promiseAll3 r1 r2 r3 with
      | Except.error msg => some ⟨throwPath g msg a, none, []⟩
      | Except.ok (u1, u2, u3) =>
          -- line 294: staleness check; lines 296-309: build input, submit POST
          if a.generationId ≠ g then some ⟨runFinally g a, none, []⟩
          else some ⟨a, some Phase.awaitSubmit, [Request.submitPost u1 u2 u3]⟩
  | Phase.awaitSubmit, Resp.submit r =>
      match r with
      | Except.error msg => some ⟨throwPath g msg a, none, []⟩
      | Except.ok ok =>
          -- line 311: staleness check BEFORE the ok test
          if a.generationId ≠ g then some ⟨runFinally g a, none, []⟩
          else if ok then some ⟨a, some Phase.awaitSubmitJson, []⟩
          else
            -- line 312: await submitResponse.text() inside the throw
            some ⟨a, some Phase.awaitSubmitText, []⟩
  | Phase.awaitSubmitText, Resp.text body =>
      -- line 312: throw new Error(`Fal.ai submission failed: ${body}`)
      some ⟨throwPath g ("Fal.ai submission failed: " ++ body) a, none, []⟩
  | Phase.awaitSubmitJson, Resp.submitJson r =>
      match r with
      | Except.error msg => some ⟨throwPath g msg a, none, []⟩
      | Except.ok urls =>
          -- line 314: retain the cancel handle (NO staleness check first)
          let a := { a with falCancelUrl := some urls.cancel_url }
          -- lines 317-320: loop entry, staleness check, first status GET
          if a.generationId ≠ g then some ⟨runFinally g a, none, []⟩
          else some ⟨a, some (Phase.awaitPoll urls.status_url urls.response_url),
            [Request.statusGet urls.status_url]⟩
  | Phase.awaitPoll su ru, Resp.pollFetch r =>
      match r with
      | Except.error msg => some ⟨throwPath g msg a, none, []⟩
      | Except.ok _ =>
          -- line 321: await pollRes.json()
          some ⟨a, some (Phase.awaitPollJson su ru), []⟩
  | Phase.awaitPollJson su ru, Resp.pollJson r =>
      match r with
      | Except.error msg => some ⟨throwPath g msg a, none, []⟩
      | Except.ok body =>
          if body.status = "COMPLETED" then
            -- line 324: the result GET is issued with NO staleness re-check
            some ⟨a, some (Phase.awaitResult su ru), [Request.resultGet ru]⟩
          else if body.status = "ERROR" then
            -- line 332: throw joined log lines (or the fallback)
            some ⟨throwPath g (logsMsg body.logs "Polling error.") a, none, []⟩
          else
            -- line 334: await the 5s delay
            some ⟨a, some (Phase.awaitSleep su ru), []⟩
  | Phase.awaitResult su ru, Resp.resultFetch r =>
      match r with
      | Except.error msg => some ⟨throwPath g msg a, none, []⟩
      | Except.ok _ =>
          -- line 325: await resultResponse.json()
          some ⟨a, some (Phase.awaitResultJson su ru), []⟩
  | Phase.awaitResultJson _ _, Resp.resultJson r =>
      match r with
      | Except.error msg => some ⟨throwPath g msg a, none, []⟩
      | Except.ok rd =>
          if rd.status = some "ERROR" ∨ rd.model_mesh_url = none then
            -- lines 326-328
            some ⟨throwPath g ("Generation failed: " ++ logsMsg rd.logs "Unknown error") a,
              none, []⟩
          else
            -- line 330 break; line 336: staleness check
            if a.generationId ≠ g then some ⟨runFinally g a, none, []⟩
            else
              -- lines 338-345 and the finally: the success tail
              some ⟨finishSuccess now g rd.model_mesh_url a, none, []⟩
  | Phase.awaitSleep su ru, Resp.sleepDone =>
      -- loop back: line 319 staleness check before the next status GET
      if a.generationId ≠ g then some ⟨runFinally g a, none, []⟩
      else some ⟨a, some (Phase.awaitPoll su ru), [Request.statusGet su]⟩
  | _, _ => none

/-- `startGeneration` (src/index.tsx lines 363-368): ignored when there are no
files or a generation is busy; otherwise resets transient state, records the
start timestamp, and launches `performGeneration`.  Returns the new
coroutine's captured id and pending await when one was launched. -/
def startGeneration (now : Nat) (a : AppState) : AppState × Option (Nat × Phase) :=
  if a.files.length = 0 ∨ a.isLoading then (a, none)
  else
    let a := resetStateForGeneration a
    let a := { a with generationStart := some now }
    let out := performGenerationStart now a
    (out.1, some out.2)

/-- `rerunImageGenerationStep` (src/index.tsx lines 370-384): best-effort
remote cancel (no modelled state effect), reset of steps/results, busy flag
on, fresh start timestamp, and relaunch of `performGeneration`. -/
def rerunImageGenerationStep (now : Nat) (a : AppState) : AppState × (Nat × Phase) :=
  let a := { a with error := none, modelUrl := none, steps := initialSteps,
                    generatedImages := [], isLoading := true,
                    totalGenerationTime := none, generationStart := some now }
  performGenerationStart now a

/-- The consumer-visible state listed by the spec: step list, generated
images, mesh URL, error message, busy flag and total time. -/
def observable (a : AppState) :
    List Step × List GeneratedImage × Option String × Option String × Bool × Option Nat :=
  (a.steps, a.generatedImages, a.modelUrl, a.error, a.isLoading, a.totalGenerationTime)

/-!
## The whole system

The component state plus the multiset of in-flight `performGeneration`
coroutines (each a captured generation id and its pending await).  One step
is one synchronous JS task: a user event handler (up to its first await), a
timer callback, or the resumption of one pending await with an
environment-chosen settlement. -/

structure Sys where
  app : AppState
  cors : List (Nat × Phase)
deriving DecidableEq, Repr

def initSys : Sys := ⟨initApp, []⟩

/-- The events the environment (user interaction, network completions,
timers) can interleave. -/
inductive Event where
  | start (now : Nat)
  | cancel
  | rerun (now : Nat)
  | resetBtn
  | fileChange (selected : Option (List String))
  | removeOne (index : Nat)
  | setUrl (v : String)
  | urlBegin (valid : Bool)
  | urlResolve (outcome : Except String String)
  | tick (now : Nat) (timerId : Nat)
  | resume (now : Nat) (k : Nat) (r : Resp)
deriving DecidableEq, Repr

/-- One synchronous task of the system.  `none` means the event is not
enabled (no such pending coroutine/timer, or a response of the wrong shape). -/
def stepFn (s : Sys) (e : Event) : Option Sys :=
  match e with
  | Event.start now =>
      let out := startGeneration now s.app
      some ⟨out.1, s.cors ++ (match out.2 with | some gp => [gp] | none => [])⟩
  | Event.cancel => some ⟨handleCancelGeneration s.app, s.cors⟩
  | Event.rerun now =>
      let out := rerunImageGenerationStep now s.app
      some ⟨out.1, s.cors ++ [out.2]⟩
  | Event.resetBtn => some ⟨reset s.app, s.cors⟩
  | Event.fileChange sel => some ⟨handleFileChange sel s.app, s.cors⟩
  | Event.removeOne i => some ⟨removeFile i s.app, s.cors⟩
  | Event.setUrl v => some ⟨{ s.app with productUrl := v }, s.cors⟩
  | Event.urlBegin valid => some ⟨(urlFetchBegin valid s.app).1, s.cors⟩
  | Event.urlResolve outcome =>
      if s.app.isFetchingUrl then some ⟨urlFetchResolve outcome s.app, s.cors⟩ else none
  | Event.tick now tid =>
      match s.app.liveTimers.find? (fun p => p.1 == tid) with
      | some p => some ⟨timerTick now p.2 s.app, s.cors⟩
      | none => none
  | Event.resume now k r =>
      match s.cors.get? k with
      | none => none
      | some gp =>
          match segment now gp.1 gp.2 r s.app with
          | none => none
          | some out =>
              some ⟨out.state,
                removeAt k s.cors ++ (match out.next with | some p => [(gp.1, p)] | none => [])⟩

/-- States reachable from the initial load. -/
inductive Reachable : Sys → Prop where
  | init : Reachable initSys
  | step {s s' : Sys} (e : Event) : Reachable s → stepFn s e = some s' → Reachable s'

/-!
## Image normalization (`resizeImage`)

The dimension computation of `resizeImage` (src/index.tsx lines 225-237) is
pure; the canvas re-encode is opaque to the claims. -/

/-- `Math.round(a / b)` for natural `a` and positive `b` (JS rounds half
up; for the dimension ranges involved the float quotient rounds to the same
integer as the exact rational). -/
def jsRound (a b : Nat) : Nat := (2 * a + b) / (2 * b)

/-- The `width`/`height` updates of `resizeImage` (src/index.tsx lines
225-237). -/
def resizeDims (width height maxSize : Nat) : Nat × Nat :=
  if height < width then
    if maxSize < width then (maxSize, jsRound (height * maxSize) width)
    else (width, height)
  else
    if maxSize < height then (jsRound (width * maxSize) height, maxSize)
    else (width, height)

/-!
## Invariants -/

/-- The stored interval handle and the pool of live timers stay in lock
step: either no timer exists, or exactly the stored one does. -/
def timerInv (a : AppState) : Prop :=
  (a.timerIntervalRef = none ∧ a.liveTimers = []) ∨
  (∃ t idx, a.timerIntervalRef = some t ∧ a.liveTimers = [(t, idx)])

/-- The inductive invariant carried through every system step. -/
def SysInv (s : Sys) : Prop :=
  timerInv s.app ∧ s.app.files.length ≤ 3

/-!
## Concrete states used by counterexamples and witnesses -/

/-- The state produced from the initial load by selecting one file and
calling `startGeneration` at clock 3: generation 1 is busy, step 0 is
loading, its interval timer runs. -/
def c1State : AppState :=
  { initApp with
      files := ["ref.png"], isLoading := true, generationId := 1,
      steps := [⟨"Generate View Images", StepStatus.loading, 0⟩,
                ⟨"Generate 3D Model", StepStatus.pending, 0⟩],
      generationStart := some 3, stepStart := some 3,
      timerIntervalRef := some 0, liveTimers := [(0, 0)], nextTimerId := 1 }

/-- A state whose live generation id is 2, so a continuation that captured
id 1 is superseded. -/
def c3State : AppState :=
  { initApp with generationId := 2 }

/-- A state in which generation 1 is current, step 0 is loading and the
start timestamp is set: the shape in which a stage-1 failure is caught. -/
def c8State : AppState :=
  { initApp with
      generationId := 1, isLoading := true,
      steps := [⟨"Generate View Images", StepStatus.loading, 0⟩,
                ⟨"Generate 3D Model", StepStatus.pending, 0⟩],
      generationStart := some 5, stepStart := some 5,
      timerIntervalRef := some 0, liveTimers := [(0, 0)], nextTimerId := 1 }

/-- A state in which generation 1 is current, step 0 is done and step 1 is
loading: the shape in which the reconstruction stage runs. -/
def stage2State : AppState :=
  { initApp with
      files := ["ref.png"], isLoading := true, generationId := 1,
      steps := [⟨"Generate View Images", StepStatus.done, 120⟩,
                ⟨"Generate 3D Model", StepStatus.loading, 0⟩],
      generatedImages := [⟨"Front view", "data:u1"⟩, ⟨"Back view", "data:u2"⟩,
                          ⟨"Left side view", "data:u3"⟩],
      generationStart := some 3, stepStart := some 130,
      timerIntervalRef := some 1, liveTimers := [(1, 1)], nextTimerId := 2 }

/-- A state already holding three selected files. -/
def threeFilesState : AppState :=
  { initApp with files := ["a.png", "b.png", "c.png"], productUrl := "https://x" }

/-!
## Field-preservation lemmas -/

@[simp] theorem clearTimer_files (a : AppState) : (clearTimer a).files = a.files := by
  cases h : a.timerIntervalRef <;> simp [clearTimer, h]

@[simp] theorem clearTimer_steps (a : AppState) : (clearTimer a).steps = a.steps := by
  cases h : a.timerIntervalRef <;> simp [clearTimer, h]

@[simp] theorem clearTimer_generatedImages (a : AppState) :
    (clearTimer a).generatedImages = a.generatedImages := by
  cases h : a.timerIntervalRef <;> simp [clearTimer, h]

@[simp] theorem clearTimer_modelUrl (a : AppState) : (clearTimer a).modelUrl = a.modelUrl := by
  cases h : a.timerIntervalRef <;> simp [clearTimer, h]

@[simp] theorem clearTimer_error (a : AppState) : (clearTimer a).error = a.error := by
  cases h : a.timerIntervalRef <;> simp [clearTimer, h]

@[simp] theorem clearTimer_isLoading (a : AppState) : (clearTimer a).isLoading = a.isLoading := by
  cases h : a.timerIntervalRef <;> simp [clearTimer, h]

@[simp] theorem clearTimer_totalGenerationTime (a : AppState) :
    (clearTimer a).totalGenerationTime = a.totalGenerationTime := by
  cases h : a.timerIntervalRef <;> simp [clearTimer, h]

@[simp] theorem clearTimer_generationId (a : AppState) :
    (clearTimer a).generationId = a.generationId := by
  cases h : a.timerIntervalRef <;> simp [clearTimer, h]

@[simp] theorem clearTimer_stepStart (a : AppState) : (clearTimer a).stepStart = a.stepStart := by
  cases h : a.timerIntervalRef <;> simp [clearTimer, h]

@[simp] theorem clearTimer_generationStart (a : AppState) :
    (clearTimer a).generationStart = a.generationStart := by
  cases h : a.timerIntervalRef <;> simp [clearTimer, h]

@[simp] theorem clearTimer_falCancelUrl (a : AppState) :
    (clearTimer a).falCancelUrl = a.falCancelUrl := by
  cases h : a.timerIntervalRef <;> simp [clearTimer, h]

@[simp] theorem clearTimer_nextTimerId (a : AppState) :
    (clearTimer a).nextTimerId = a.nextTimerId := by
  cases h : a.timerIntervalRef <;> simp [clearTimer, h]

@[simp] theorem runFinally_files (g : Nat) (a : AppState) :
    (runFinally g a).files = a.files := by
  unfold runFinally; split <;> rfl

@[simp] theorem runFinally_steps (g : Nat) (a : AppState) :
    (runFinally g a).steps = a.steps := by
  unfold runFinally; split <;> rfl

@[simp] theorem runFinally_generatedImages (g : Nat) (a : AppState) :
    (runFinally g a).generatedImages = a.generatedImages := by
  unfold runFinally; split <;> rfl

@[simp] theorem runFinally_modelUrl (g : Nat) (a : AppState) :
    (runFinally g a).modelUrl = a.modelUrl := by
  unfold runFinally; split <;> rfl

@[simp] theorem runFinally_error (g : Nat) (a : AppState) :
    (runFinally g a).error = a.error := by
  unfold runFinally; split <;> rfl

@[simp] theorem runFinally_totalGenerationTime (g : Nat) (a : AppState) :
    (runFinally g a).totalGenerationTime = a.totalGenerationTime := by
  unfold runFinally; split <;> rfl

@[simp] theorem runFinally_generationId (g : Nat) (a : AppState) :
    (runFinally g a).generationId = a.generationId := by
  unfold runFinally; split <;> rfl

@[simp] theorem runFinally_liveTimers (g : Nat) (a : AppState) :
    (runFinally g a).liveTimers = a.liveTimers := by
  unfold runFinally; split <;> rfl

@[simp] theorem runFinally_timerIntervalRef (g : Nat) (a : AppState) :
    (runFinally g a).timerIntervalRef = a.timerIntervalRef := by
  unfold runFinally; split <;> rfl

@[simp] theorem runFinally_stepStart (g : Nat) (a : AppState) :
    (runFinally g a).stepStart = a.stepStart := by
  unfold runFinally; split <;> rfl

@[simp] theorem runFinally_generationStart (g : Nat) (a : AppState) :
    (runFinally g a).generationStart = a.generationStart := by
  unfold runFinally; split <;> rfl

/-- A superseded continuation's `finally` changes nothing. -/
theorem runFinally_stale {g : Nat} {a : AppState} (h : a.generationId ≠ g) :
    runFinally g a = a := by
  unfold runFinally
  rw [if_neg h]

/-- A current continuation's `finally` resets the busy flag and drops the
cancel handle. -/
theorem runFinally_current {g : Nat} {a : AppState} (h : a.generationId = g) :
    runFinally g a = { a with isLoading := false, falCancelUrl := none } := by
  unfold runFinally
  rw [if_pos h]

@[simp] theorem applyCatch_files (msg : String) (a : AppState) :
    (applyCatch msg a).files = a.files := by
  rfl

@[simp] theorem applyCatch_generatedImages (msg : String) (a : AppState) :
    (applyCatch msg a).generatedImages = a.generatedImages := by
  rfl

@[simp] theorem applyCatch_modelUrl (msg : String) (a : AppState) :
    (applyCatch msg a).modelUrl = a.modelUrl := by
  rfl

@[simp] theorem applyCatch_isLoading (msg : String) (a : AppState) :
    (applyCatch msg a).isLoading = a.isLoading := by
  rfl

@[simp] theorem applyCatch_totalGenerationTime (msg : String) (a : AppState) :
    (applyCatch msg a).totalGenerationTime = a.totalGenerationTime := by
  rfl

@[simp] theorem applyCatch_generationId (msg : String) (a : AppState) :
    (applyCatch msg a).generationId = a.generationId := by
  rfl

@[simp] theorem applyCatch_liveTimers (msg : String) (a : AppState) :
    (applyCatch msg a).liveTimers = a.liveTimers := by
  rfl

@[simp] theorem applyCatch_timerIntervalRef (msg : String) (a : AppState) :
    (applyCatch msg a).timerIntervalRef = a.timerIntervalRef := by
  rfl

@[simp] theorem applyCatch_stepStart (msg : String) (a : AppState) :
    (applyCatch msg a).stepStart = a.stepStart := by
  rfl

@[simp] theorem applyCatch_falCancelUrl (msg : String) (a : AppState) :
    (applyCatch msg a).falCancelUrl = a.falCancelUrl := by
  rfl

@[simp] theorem applyCatch_error (msg : String) (a : AppState) :
    (applyCatch msg a).error =
      some (if msg = "" then "An unknown error occurred." else msg) := by
  rfl

@[simp] theorem applyCatch_steps (msg : String) (a : AppState) :
    (applyCatch msg a).steps = markLoadingError a.steps := by
  rfl

/-- A superseded continuation's `throw` changes nothing: the `catch` and the
`finally` both bail out. -/
theorem throwPath_stale {g : Nat} {a : AppState} (msg : String) (h : a.generationId ≠ g) :
    throwPath g msg a = a := by
  unfold throwPath
  rw [if_neg (by simpa using h), runFinally_stale h]

/-- A current continuation's `throw` runs the `catch` and the `finally`. -/
theorem throwPath_current {g : Nat} {a : AppState} (msg : String) (h : a.generationId = g) :
    throwPath g msg a =
      { applyCatch msg a with isLoading := false, falCancelUrl := none } := by
  unfold throwPath
  rw [if_pos h, runFinally_current (by simpa using h)]

@[simp] theorem updateStep_files (now i : Nat) (st : StepStatus) (a : AppState) :
    (updateStep now i st a).files = a.files := by
  unfold updateStep; split <;> simp

@[simp] theorem updateStep_generatedImages (now i : Nat) (st : StepStatus) (a : AppState) :
    (updateStep now i st a).generatedImages = a.generatedImages := by
  unfold updateStep; split <;> simp

@[simp] theorem updateStep_modelUrl (now i : Nat) (st : StepStatus) (a : AppState) :
    (updateStep now i st a).modelUrl = a.modelUrl := by
  unfold updateStep; split <;> simp

@[simp] theorem updateStep_error (now i : Nat) (st : StepStatus) (a : AppState) :
    (updateStep now i st a).error = a.error := by
  unfold updateStep; split <;> simp

@[simp] theorem updateStep_isLoading (now i : Nat) (st : StepStatus) (a : AppState) :
    (updateStep now i st a).isLoading = a.isLoading := by
  unfold updateStep; split <;> simp

@[simp] theorem updateStep_totalGenerationTime (now i : Nat) (st : StepStatus) (a : AppState) :
    (updateStep now i st a).totalGenerationTime = a.totalGenerationTime := by
  unfold updateStep; split <;> simp

@[simp] theorem updateStep_generationId (now i : Nat) (st : StepStatus) (a : AppState) :
    (updateStep now i st a).generationId = a.generationId := by
  unfold updateStep; split <;> simp

@[simp] theorem updateStep_falCancelUrl (now i : Nat) (st : StepStatus) (a : AppState) :
    (updateStep now i st a).falCancelUrl = a.falCancelUrl := by
  unfold updateStep; split <;> simp

@[simp] theorem updateStep_generationStart (now i : Nat) (st : StepStatus) (a : AppState) :
    (updateStep now i st a).generationStart = a.generationStart := by
  unfold updateStep; split <;> simp

@[simp] theorem timerTick_eq_fields (now idx : Nat) (a : AppState) :
    (timerTick now idx a).files = a.files ∧
    (timerTick now idx a).liveTimers = a.liveTimers ∧
    (timerTick now idx a).timerIntervalRef = a.timerIntervalRef := by
  cases h : a.stepStart <;> simp [timerTick, h]

@[simp] theorem finishSuccess_files (now g : Nat) (mesh : Option String) (a : AppState) :
    (finishSuccess now g mesh a).files = a.files := by
  simp only [finishSuccess, runFinally_files]
  split <;> simp

/-!
## List-index lemmas -/

theorem updAt_get? (f : Step → Step) :
    ∀ (l : List Step) (i : Nat), (updAt f i l)[i]? = l[i]?.map f := by
  intro l
  induction l with
  | nil => intro i; cases i <;> simp [updAt]
  | cons st rest ih => intro i; cases i <;> simp [updAt, ih]

theorem updAt_get?_ne (f : Step → Step) :
    ∀ (l : List Step) (i j : Nat), i ≠ j → (updAt f i l)[j]? = l[j]? := by
  intro l
  induction l with
  | nil => intro i j _; cases i <;> simp [updAt]
  | cons st rest ih =>
      intro i j hne
      cases i with
      | zero => cases j with
        | zero => exact absurd rfl hne
        | succ j => simp [updAt]
      | succ i => cases j with
        | zero => simp [updAt]
        | succ j => simpa [updAt] using ih i j (by omega)

theorem mapWithIdxFrom_get? (f : Nat → Step → Step) :
    ∀ (l : List Step) (k i : Nat),
      (mapWithIdxFrom f k l)[i]? = l[i]?.map (f (k + i)) := by
  intro l
  induction l with
  | nil => intro k i; cases i <;> simp [mapWithIdxFrom]
  | cons st rest ih =>
      intro k i
      cases i with
      | zero => simp [mapWithIdxFrom]
      | succ i =>
          have := ih (k + 1) i
          simpa [mapWithIdxFrom, Nat.add_assoc, Nat.add_comm 1 i] using this

theorem mapWithIdx_get? (f : Nat → Step → Step) (l : List Step) (i : Nat) :
    (mapWithIdx f l)[i]? = l[i]?.map (f i) := by
  simpa using mapWithIdxFrom_get? f l 0 i

theorem removeAt_length_le {α : Type} :
    ∀ (i : Nat) (l : List α), (removeAt i l).length ≤ l.length := by
  intro i
  induction i with
  | zero => intro l; cases l <;> simp [removeAt]
  | succ i ih =>
      intro l
      cases l with
      | nil => simp [removeAt]
      | cons x rest => simpa [removeAt] using ih rest

/-!
## Timer-invariant lemmas -/

theorem timerInv_clearTimer {a : AppState} (h : timerInv a) :
    (clearTimer a).timerIntervalRef = none ∧ (clearTimer a).liveTimers = [] := by
  rcases h with ⟨h1, h2⟩ | ⟨t, idx, h1, h2⟩ <;> simp [clearTimer, h1, h2]

theorem timerInv_updateStep {a : AppState} (now i : Nat) (st : StepStatus)
    (h : timerInv a) : timerInv (updateStep now i st a) := by
  obtain ⟨h1, h2⟩ := timerInv_clearTimer h
  unfold updateStep
  split
  · right
    exact ⟨(clearTimer a).nextTimerId, i, by simp [h1, h2]⟩
  · left
    simp [h1, h2]

theorem timerInv_applyCatch {a : AppState} (msg : String) (h : timerInv a) :
    timerInv (applyCatch msg a) := by
  rcases h with ⟨h1, h2⟩ | ⟨t, idx, h1, h2⟩
  · exact Or.inl (by simp [h1, h2])
  · exact Or.inr ⟨t, idx, by simp [h1, h2]⟩

theorem timerInv_runFinally {a : AppState} (g : Nat) (h : timerInv a) :
    timerInv (runFinally g a) := by
  rcases h with ⟨h1, h2⟩ | ⟨t, idx, h1, h2⟩
  · exact Or.inl (by simp [h1, h2])
  · exact Or.inr ⟨t, idx, by simp [h1, h2]⟩

theorem timerInv_throwPath {a : AppState} (g : Nat) (msg : String) (h : timerInv a) :
    timerInv (throwPath g msg a) := by
  unfold throwPath
  apply timerInv_runFinally
  split
  · exact timerInv_applyCatch msg h
  · exact h

theorem timerInv_finishSuccess {a : AppState} (now g : Nat) (mesh : Option String)
    (h : timerInv a) : timerInv (finishSuccess now g mesh a) := by
  unfold finishSuccess
  apply timerInv_runFinally
  have h1 := timerInv_updateStep (a := a) now 1 StepStatus.done h
  rcases h1 with ⟨h1, h2⟩ | ⟨t, idx, h1, h2⟩
  · split <;> exact Or.inl (by simp [h1, h2])
  · split <;> exact Or.inr ⟨t, idx, by simp [h1, h2]⟩

theorem timerInv_timerTick {a : AppState} (now idx : Nat) (h : timerInv a) :
    timerInv (timerTick now idx a) := by
  rcases h with ⟨h1, h2⟩ | ⟨t, i, h1, h2⟩
  · exact Or.inl (by cases hss : a.stepStart <;> simp [timerTick, hss, h1, h2])
  · exact Or.inr ⟨t, i, by cases hss : a.stepStart <;> simp [timerTick, hss, h1, h2]⟩

@[simp] theorem throwPath_files (g : Nat) (msg : String) (a : AppState) :
    (throwPath g msg a).files = a.files := by
  unfold throwPath
  split <;> simp

@[simp] theorem throwPath_modelUrl (g : Nat) (msg : String) (a : AppState) :
    (throwPath g msg a).modelUrl = a.modelUrl := by
  unfold throwPath
  split <;> simp

@[simp] theorem throwPath_totalGenerationTime (g : Nat) (msg : String) (a : AppState) :
    (throwPath g msg a).totalGenerationTime = a.totalGenerationTime := by
  unfold throwPath
  split <;> simp

@[simp] theorem throwPath_generatedImages (g : Nat) (msg : String) (a : AppState) :
    (throwPath g msg a).generatedImages = a.generatedImages := by
  unfold throwPath
  split <;> simp

/-!
## Master lemmas over all coroutine segments -/

/-- No segment of `performGeneration` ever touches the input file list. -/
theorem segment_files {now g : Nat} {p : Phase} {r : Resp} {a : AppState} {out : SegOut}
    (h : segment now g p r a = some out) : out.state.files = a.files := by
  cases p <;> cases r <;> simp only [segment] at h <;> try simp at h
  all_goals repeat' split at h
  all_goals try simp at h
  all_goals subst h
  all_goals simp

/-- Every segment of `performGeneration` preserves the timer invariant. -/
theorem segment_timerInv {now g : Nat} {p : Phase} {r : Resp} {a : AppState} {out : SegOut}
    (h : segment now g p r a = some out) (ht : timerInv a) : timerInv out.state := by
  cases p <;> cases r <;> simp only [segment] at h <;> try simp at h
  all_goals repeat' split at h
  all_goals try simp at h
  all_goals subst h
  all_goals
    first
    | exact ht
    | exact timerInv_runFinally _ ht
    | exact timerInv_throwPath _ _ ht
    | exact timerInv_finishSuccess _ _ _ ht
    | exact timerInv_updateStep _ _ _ (timerInv_updateStep _ _ _ ht)

/-- A segment resumed by a SUPERSEDED continuation performs no observable
state mutation: the step list, generated images, mesh URL, error message,
busy flag and total time are all left unchanged. -/
theorem segment_stale_observable {now g : Nat} {p : Phase} {r : Resp} {a : AppState}
    {out : SegOut} (hg : a.generationId ≠ g) (h : segment now g p r a = some out) :
    observable out.state = observable a := by
  cases p <;> cases r <;> simp only [segment] at h <;> try simp at h
  all_goals repeat' split at h
  all_goals try simp at h
  all_goals subst h
  all_goals
    first
    | rfl
    | rw [throwPath_stale _ hg]
    | rw [runFinally_stale hg]
    | simp_all [observable, runFinally_stale]

/-- A segment resumed by a superseded continuation never issues another
status GET: the staleness check guards every status request. -/
theorem segment_stale_no_statusGet {now g : Nat} {p : Phase} {r : Resp} {a : AppState}
    {out : SegOut} (hg : a.generationId ≠ g) (h : segment now g p r a = some out) :
    ∀ u, Request.statusGet u ∉ out.requests := by
  cases p <;> cases r <;> simp only [segment] at h <;> try simp at h
  all_goals repeat' split at h
  all_goals try simp at h
  all_goals subst h
  all_goals intro u
  all_goals simp_all

/-!
## Invariant preservation through every system event -/

@[simp] theorem startGeneration_files (now : Nat) (a : AppState) :
    (startGeneration now a).1.files = a.files := by
  unfold startGeneration performGenerationStart
  split <;> simp [resetStateForGeneration]

theorem timerInv_startGeneration {a : AppState} (now : Nat) (h : timerInv a) :
    timerInv (startGeneration now a).1 := by
  unfold startGeneration performGenerationStart
  split
  · exact h
  · exact timerInv_updateStep _ _ _ h

@[simp] theorem rerun_files (now : Nat) (a : AppState) :
    (rerunImageGenerationStep now a).1.files = a.files := by
  unfold rerunImageGenerationStep performGenerationStart
  simp

theorem timerInv_rerun {a : AppState} (now : Nat) (h : timerInv a) :
    timerInv (rerunImageGenerationStep now a).1 := by
  unfold rerunImageGenerationStep performGenerationStart
  exact timerInv_updateStep _ _ _ h

@[simp] theorem handleCancelGeneration_files (a : AppState) :
    (handleCancelGeneration a).files = [] := by
  simp [handleCancelGeneration, reset, resetStateForGeneration]

theorem timerInv_handleCancelGeneration {a : AppState} (h : timerInv a) :
    timerInv (handleCancelGeneration a) := by
  have h2 := timerInv_clearTimer (a := { a with generationId := a.generationId + 1 }) h
  left
  constructor <;>
    simp [handleCancelGeneration, reset, resetStateForGeneration, h2.1, h2.2]

theorem timerInv_reset {a : AppState} (h : timerInv a) : timerInv (reset a) := by
  rcases h with ⟨h1, h2⟩ | ⟨t, idx, h1, h2⟩
  · exact Or.inl (by simp [reset, resetStateForGeneration, h1, h2])
  · exact Or.inr ⟨t, idx, by simp [reset, resetStateForGeneration, h1, h2]⟩

theorem handleFileChange_len {a : AppState} (sel : Option (List String))
    (h : a.files.length ≤ 3) : (handleFileChange sel a).files.length ≤ 3 := by
  cases sel with
  | none => simpa [handleFileChange] using h
  | some l =>
      have he : ¬ ((3 : Int) - (a.files.length : Int) < 0) := by omega
      simp only [handleFileChange, jsSliceEnd, he, if_false, List.length_append,
        List.length_take]
      omega

/-- Every system step preserves the invariant. -/
theorem stepFn_inv {s s' : Sys} (e : Event) (hs : SysInv s) (h : stepFn s e = some s') :
    SysInv s' := by
  obtain ⟨ht, hf⟩ := hs
  cases e with
  | start now =>
      simp only [stepFn, Option.some.injEq] at h
      subst h
      exact ⟨timerInv_startGeneration now ht, by simpa using hf⟩
  | cancel =>
      simp only [stepFn, Option.some.injEq] at h
      subst h
      exact ⟨timerInv_handleCancelGeneration ht, by simp⟩
  | rerun now =>
      simp only [stepFn, Option.some.injEq] at h
      subst h
      exact ⟨timerInv_rerun now ht, by simpa using hf⟩
  | resetBtn =>
      simp only [stepFn, Option.some.injEq] at h
      subst h
      exact ⟨timerInv_reset ht, by simp [reset, resetStateForGeneration]⟩
  | fileChange sel =>
      simp only [stepFn, Option.some.injEq] at h
      subst h
      refine ⟨?_, handleFileChange_len sel hf⟩
      cases sel with
      | none => exact ht
      | some l =>
          rcases ht with ⟨h1, h2⟩ | ⟨t, idx, h1, h2⟩
          · exact Or.inl (by simp [handleFileChange, h1, h2])
          · exact Or.inr ⟨t, idx, by simp [handleFileChange, h1, h2]⟩
  | removeOne i =>
      simp only [stepFn, Option.some.injEq] at h
      subst h
      refine ⟨?_, ?_⟩
      · rcases ht with ⟨h1, h2⟩ | ⟨t, idx, h1, h2⟩
        · exact Or.inl (by simp [removeFile, h1, h2])
        · exact Or.inr ⟨t, idx, by simp [removeFile, h1, h2]⟩
      · calc (removeFile i s.app).files.length
            = (removeAt i s.app.files).length := by simp [removeFile]
          _ ≤ s.app.files.length := removeAt_length_le i s.app.files
          _ ≤ 3 := hf
  | setUrl v =>
      simp only [stepFn, Option.some.injEq] at h
      subst h
      exact ⟨ht, hf⟩
  | urlBegin valid =>
      simp only [stepFn, Option.some.injEq] at h
      subst h
      unfold urlFetchBegin
      split
      · exact ⟨ht, hf⟩
      · split
        · refine ⟨?_, by simpa using hf⟩
          rcases ht with ⟨h1, h2⟩ | ⟨t, idx, h1, h2⟩
          · exact Or.inl (by simp [h1, h2])
          · exact Or.inr ⟨t, idx, by simp [h1, h2]⟩
        · refine ⟨?_, by simpa using hf⟩
          rcases ht with ⟨h1, h2⟩ | ⟨t, idx, h1, h2⟩
          · exact Or.inl (by simp [h1, h2])
          · exact Or.inr ⟨t, idx, by simp [h1, h2]⟩
  | urlResolve outcome =>
      simp only [stepFn] at h
      split at h
      · simp only [Option.some.injEq] at h
        subst h
        cases outcome with
        | ok f =>
            refine ⟨?_, by simp [urlFetchResolve]⟩
            rcases ht with ⟨h1, h2⟩ | ⟨t, idx, h1, h2⟩
            · exact Or.inl (by simp [urlFetchResolve, h1, h2])
            · exact Or.inr ⟨t, idx, by simp [urlFetchResolve, h1, h2]⟩
        | error msg =>
            refine ⟨?_, by simpa [urlFetchResolve] using hf⟩
            rcases ht with ⟨h1, h2⟩ | ⟨t, idx, h1, h2⟩
            · exact Or.inl (by simp [urlFetchResolve, h1, h2])
            · exact Or.inr ⟨t, idx, by simp [urlFetchResolve, h1, h2]⟩
      · exact absurd h (by simp)
  | tick now tid =>
      simp only [stepFn] at h
      split at h
      · rename_i p hp
        simp only [Option.some.injEq] at h
        subst h
        refine ⟨timerInv_timerTick _ _ ht, ?_⟩
        have := (timerTick_eq_fields now p.2 s.app).1
        simpa [this] using hf
      · exact absurd h (by simp)
  | resume now k r =>
      simp only [stepFn] at h
      split at h
      · exact absurd h (by simp)
      · split at h
        · exact absurd h (by simp)
        · rename_i gp hgp out hseg
          simp only [Option.some.injEq] at h
          subst h
          exact ⟨segment_timerInv hseg ht, by simpa [segment_files hseg] using hf⟩

/-- Every reachable system state satisfies the invariant. -/
theorem reachable_inv {s : Sys} (h : Reachable s) : SysInv s := by
  induction h with
  | init =>
      exact ⟨Or.inl (by simp [initSys, initApp]), by simp [initSys, initApp]⟩
  | step e _ hstep ih => exact stepFn_inv e ih hstep

/-!
## String helpers -/

theorem append_ne_empty_of_left (a b : String) (h : a ≠ "") : a ++ b ≠ "" := by
  intro he
  apply h
  have hd := congrArg String.data he
  simp [String.data_append] at hd
  cases a
  simp_all

theorem logsMsg_ne_empty (logs : Option (List String)) (fb : String) (h : fb ≠ "") :
    logsMsg logs fb ≠ "" := by
  unfold logsMsg
  cases logs with
  | none => exact h
  | some l =>
      dsimp only
      split <;> simp_all

theorem logsMsg_contains (logs : Option (List String)) (fb : String) :
    ∃ pre post,
      logsMsg logs fb = pre ++ String.intercalate "\n" (logs.getD []) ++ post := by
  unfold logsMsg
  cases logs with
  | none =>
      have he : String.intercalate "\n" ([] : List String) = "" := rfl
      exact ⟨fb, "", by simp [he]⟩
  | some l =>
      dsimp only
      split
      · rename_i hj
        exact ⟨fb, "", by simp [Option.getD, hj]⟩
      · exact ⟨"", "", by simp⟩

/-!
## Claim theorems -/

/-- C7: normalization preserves aspect ratio and caps the longer side at the
maximum dimension 1024: within bounds the dimensions are unchanged, and when
`max w h > 1024` the longer side becomes 1024 while the shorter becomes
`round(shorter * 1024 / longer)` (rounding as JS `Math.round`). -/
theorem C7_resize_bounds (w h : Nat) :
    (max w h ≤ 1024 → resizeDims w h 1024 = (w, h)) ∧
    (1024 < max w h →
      (h ≤ w → resizeDims w h 1024 = (1024, jsRound (h * 1024) w)) ∧
      (w < h → resizeDims w h 1024 = (jsRound (w * 1024) h, 1024))) := by
  refine ⟨?_, ?_⟩
  · intro hmax
    have hw : ¬ (1024 < w) := by omega
    have hh : ¬ (1024 < h) := by omega
    unfold resizeDims
    rw [if_neg hw, if_neg hh]
    split <;> rfl
  · intro hmax
    refine ⟨?_, ?_⟩
    · intro hle
      have hw : 1024 < w := by omega
      rcases Nat.lt_or_ge h w with hlt | hge
      · unfold resizeDims
        rw [if_pos hlt, if_pos hw]
      · have heq : h = w := by omega
        subst heq
        unfold resizeDims
        rw [if_neg (by omega), if_pos hw]
        have hr : jsRound (h * 1024) h = 1024 := by
          unfold jsRound
          have e1 : 2 * (h * 1024) + h = h * 2049 := by ring
          have e2 : 2 * h = h * 2 := by ring
          rw [e1, e2, Nat.mul_div_mul_left 2049 2 (by omega)]
        rw [hr]
    · intro hlt
      have hh : 1024 < h := by omega
      unfold resizeDims
      rw [if_neg (by omega), if_pos hh]

/-- C7 witness: a 2000×1000 input yields 1024×512, and a 500×300 input is
left unchanged. -/
theorem C7_witness :
    (1024 < max 2000 1000 ∧ resizeDims 2000 1000 1024 = (1024, 512)) ∧
    (max 500 300 ≤ 1024 ∧ resizeDims 500 300 1024 = (500, 300)) := by
  refine ⟨⟨by decide, ?_⟩, ⟨by decide, (C7_resize_bounds 500 300).1 (by decide)⟩⟩
  have h := ((C7_resize_bounds 2000 1000).2 (by decide)).1 (by decide)
  rw [h]
  decide

/-- C2 counterexample: calling `cancel()` from the initial-load state does
NOT leave the system in the identical state: the step list becomes the two
pending initial steps, while the initial load has no steps at all. -/
theorem C2_counterexample :
    handleCancelGeneration initApp ≠ initApp ∧
    (handleCancelGeneration initApp).steps.length = 2 ∧
    initApp.steps.length = 0 := by decide

/-- C2 (amended): from every state, `cancel()` clears the files, generated
images, mesh URL, error and total time, and resets the busy flag — identical
to the initial load EXCEPT that the step list is reset to the two `pending`
initial steps rather than to the empty list of the initial load. -/
theorem C2_cancel_resets (a : AppState) :
    (handleCancelGeneration a).files = [] ∧
    (handleCancelGeneration a).generatedImages = [] ∧
    (handleCancelGeneration a).modelUrl = none ∧
    (handleCancelGeneration a).error = none ∧
    (handleCancelGeneration a).isLoading = false ∧
    (handleCancelGeneration a).totalGenerationTime = none ∧
    (handleCancelGeneration a).steps = initialSteps ∧
    (handleCancelGeneration a).steps ≠ initApp.steps := by
  refine ⟨?_, ?_, ?_, ?_, ?_, ?_, ?_, ?_⟩ <;>
    simp [handleCancelGeneration, reset, resetStateForGeneration, initialSteps, initApp]

/-- C10: in every reachable state the input image list holds at most 3
entries; `handleFileChange` truncates additions beyond the cap; and the URL
fetch refuses outright (returns with no fetch begun and the state unchanged)
when 3 files are already present. -/
theorem C10_file_cap :
    (∀ s : Sys, Reachable s → s.app.files.length ≤ 3) ∧
    (∀ (valid : Bool) (a : AppState), 3 ≤ a.files.length →
      urlFetchBegin valid a = (a, false)) ∧
    (∀ (sel : List String) (a : AppState), a.files.length ≤ 3 →
      (handleFileChange (some sel) a).files.length ≤ 3) := by
  refine ⟨fun s h => (reachable_inv h).2, ?_, ?_⟩
  · intro valid a hge
    unfold urlFetchBegin
    rw [if_pos (Or.inr (Or.inr hge))]
  · intro sel a hle
    exact handleFileChange_len (some sel) hle

/-- C10 witness: the cap holds at the initial state; with 3 files present a
URL fetch is refused; adding 4 more files to a 3-file state stays within the
cap. -/
theorem applyCatch_generationStart (msg : String) (a : AppState) :
    (applyCatch msg a).generationStart =
      if a.generationStart.getD 0 ≠ 0 then none else a.generationStart := rfl

/-- C9: at most one loading timer is ever active (in every reachable state
at most one interval is live); transitioning a `loading` step to `done` or
`error` freezes its time at the elapsed value at the moment of transition
and stops the timer; and a timer tick never updates the time of a step that
is no longer `loading`. -/
theorem C9_timer_discipline :
    (∀ s : Sys, Reachable s → s.app.liveTimers.length ≤ 1) ∧
    (∀ (now i : Nat) (ns : StepStatus) (a : AppState) (st : Step) (t0 : Nat),
      timerInv a → ns ≠ StepStatus.loading →
      a.steps[i]? = some st → st.status = StepStatus.loading →
      a.stepStart = some t0 → t0 ≠ 0 →
      (updateStep now i ns a).steps[i]? =
        some { st with status := ns, time := now - t0 } ∧
      (updateStep now i ns a).timerIntervalRef = none ∧
      (updateStep now i ns a).liveTimers = []) ∧
    (∀ (now idx i : Nat) (a : AppState) (st : Step),
      a.steps[i]? = some st → st.status ≠ StepStatus.loading →
      (timerTick now idx a).steps[i]? = some st) := by
  refine ⟨?_, ?_, ?_⟩
  · intro s hs
    rcases (reachable_inv hs).1 with ⟨_, h2⟩ | ⟨t, idx, _, h2⟩ <;> simp [h2]
  · intro now i ns a st t0 ht hns hst hload hss ht0
    obtain ⟨hc1, hc2⟩ := timerInv_clearTimer ht
    unfold updateStep
    rw [if_neg hns]
    refine ⟨?_, by simp [hc1], by simp [hc2]⟩
    simp only [clearTimer_steps, clearTimer_stepStart, hss, updAt_get?, hst,
      Option.map_some', Option.getD_some, Option.some.injEq]
    rw [if_pos ⟨hload, ht0⟩]
  · intro now idx i a st hst hns
    cases hss : a.stepStart with
    | none => simp [timerTick, hss, hst]
    | some t0 => simp [timerTick, hss, mapWithIdx_get?, hst, hns]

/-- C9 witness: at the initial load no timer is live; finishing the loading
reconstruction step at clock 500 freezes its time at 370 elapsed and stops
the timer; a later tick leaves the finished stage-1 step untouched. -/
theorem C9_witness :
    initSys.app.liveTimers.length ≤ 1 ∧
    ((updateStep 500 1 StepStatus.done stage2State).steps[1]? =
        some ⟨"Generate 3D Model", StepStatus.done, 370⟩ ∧
      (updateStep 500 1 StepStatus.done stage2State).timerIntervalRef = none ∧
      (updateStep 500 1 StepStatus.done stage2State).liveTimers = []) ∧
    (timerTick 777 1 stage2State).steps[0]? =
      some ⟨"Generate View Images", StepStatus.done, 120⟩ := by
  refine ⟨C9_timer_discipline.1 initSys Reachable.init, ?_,
    C9_timer_discipline.2.2 777 1 0 stage2State
      ⟨"Generate View Images", StepStatus.done, 120⟩ rfl (by decide)⟩
  have h := C9_timer_discipline.2.1 500 1 StepStatus.done stage2State
    ⟨"Generate 3D Model", StepStatus.loading, 0⟩ 130
    (Or.inr ⟨1, 1, rfl, rfl⟩) (by decide) rfl rfl rfl (by decide)
  exact ⟨h.1.trans (by decide), h.2.1, h.2.2⟩

/-- C4: when polling has observed COMPLETED but the fetched result reports
status ERROR or a null/absent mesh URL, the current (non-superseded)
generation ends in the error state: the mesh URL and total time are never
set (left unchanged), the failure message is recorded, the busy flag is
cleared and the run finishes without success. -/
theorem C4_completed_bad_result (now g : Nat) (su ru : String) (rd : ResultBody)
    (a : AppState) (hcur : a.generationId = g)
    (hbad : rd.status = some "ERROR" ∨ rd.model_mesh_url = none) :
    segment now g (Phase.awaitResultJson su ru) (Resp.resultJson (Except.ok rd)) a =
      some ⟨throwPath g ("Generation failed: " ++ logsMsg rd.logs "Unknown error") a,
        none, []⟩ ∧
    (throwPath g ("Generation failed: " ++ logsMsg rd.logs "Unknown error")
        a).modelUrl = a.modelUrl ∧
    (throwPath g ("Generation failed: " ++ logsMsg rd.logs "Unknown error")
        a).totalGenerationTime = a.totalGenerationTime ∧
    (throwPath g ("Generation failed: " ++ logsMsg rd.logs "Unknown error")
        a).error = some ("Generation failed: " ++ logsMsg rd.logs "Unknown error") ∧
    (throwPath g ("Generation failed: " ++ logsMsg rd.logs "Unknown error")
        a).isLoading = false := by
  refine ⟨?_, by simp, by simp, ?_, ?_⟩
  · simp only [segment]
    rw [if_pos hbad]
  · rw [throwPath_current _ hcur]
    show (applyCatch ("Generation failed: " ++ logsMsg rd.logs "Unknown error") a).error = _
    rw [applyCatch_error, if_neg (append_ne_empty_of_left _ _ (by decide))]
  · rw [throwPath_current _ hcur]

/-- C4 witness: a COMPLETED poll followed by a result with a null mesh URL
ends generation 1 in the error state with the fallback message, the mesh URL
still unset. -/
theorem C4_witness :
    segment 9 1 (Phase.awaitResultJson "su" "ru")
        (Resp.resultJson (Except.ok ⟨none, none, none⟩)) stage2State =
      some ⟨throwPath 1 ("Generation failed: " ++ logsMsg none "Unknown error")
        stage2State, none, []⟩ ∧
    (throwPath 1 ("Generation failed: " ++ logsMsg none "Unknown error")
        stage2State).modelUrl = none ∧
    (throwPath 1 ("Generation failed: " ++ logsMsg none "Unknown error")
        stage2State).error =
      some ("Generation failed: " ++ logsMsg none "Unknown error") ∧
    (throwPath 1 ("Generation failed: " ++ logsMsg none "Unknown error")
        stage2State).isLoading = false := by
  have h := C4_completed_bad_result 9 1 "su" "ru" ⟨none, none, none⟩ stage2State rfl
    (Or.inr rfl)
  exact ⟨h.1, h.2.1.trans rfl, h.2.2.2.1, h.2.2.2.2⟩

/-- C5: a non-success HTTP response to the job submission (e.g. status 500
with body "server error") fails the current generation with an error message
containing the response body, marks stage 2's step error, keeps stage 1's
step done, and clears the busy flag. -/
theorem C5_submit_http_failure (now now2 g : Nat) (body : String) (a : AppState)
    (n0 n1 : String) (t0 t1 : Nat)
    (hcur : a.generationId = g)
    (hsteps : a.steps = [⟨n0, StepStatus.done, t0⟩, ⟨n1, StepStatus.loading, t1⟩]) :
    segment now g Phase.awaitSubmit (Resp.submit (Except.ok false)) a =
      some ⟨a, some Phase.awaitSubmitText, []⟩ ∧
    segment now2 g Phase.awaitSubmitText (Resp.text body) a =
      some ⟨throwPath g ("Fal.ai submission failed: " ++ body) a, none, []⟩ ∧
    (∃ pre post, (throwPath g ("Fal.ai submission failed: " ++ body) a).error =
      some (pre ++ body ++ post)) ∧
    (throwPath g ("Fal.ai submission failed: " ++ body) a).steps =
      [⟨n0, StepStatus.done, t0⟩, ⟨n1, StepStatus.error, t1⟩] ∧
    (throwPath g ("Fal.ai submission failed: " ++ body) a).isLoading = false := by
  refine ⟨?_, rfl, ?_, ?_, ?_⟩
  · simp [segment, hcur]
  · refine ⟨"Fal.ai submission failed: ", "", ?_⟩
    rw [throwPath_current _ hcur]
    show (applyCatch ("Fal.ai submission failed: " ++ body) a).error = _
    rw [applyCatch_error, if_neg (append_ne_empty_of_left _ _ (by decide))]
    simp
  · rw [throwPath_current _ hcur]
    show (applyCatch ("Fal.ai submission failed: " ++ body) a).steps = _
    rw [applyCatch_steps, hsteps]
    simp [markLoadingError]
  · rw [throwPath_current _ hcur]

/-- C5 witness: HTTP failure with body "server error" during generation 1:
stage 2 is marked error, stage 1 stays done, and the stored message contains
"server error". -/
theorem C5_witness :
    segment 9 1 Phase.awaitSubmit (Resp.submit (Except.ok false)) stage2State =
      some ⟨stage2State, some Phase.awaitSubmitText, []⟩ ∧
    segment 10 1 Phase.awaitSubmitText (Resp.text "server error") stage2State =
      some ⟨throwPath 1 ("Fal.ai submission failed: " ++ "server error") stage2State,
        none, []⟩ ∧
    (∃ pre post,
      (throwPath 1 ("Fal.ai submission failed: " ++ "server error") stage2State).error =
        some (pre ++ "server error" ++ post)) ∧
    (throwPath 1 ("Fal.ai submission failed: " ++ "server error") stage2State).steps =
      [⟨"Generate View Images", StepStatus.done, 120⟩,
       ⟨"Generate 3D Model", StepStatus.error, 0⟩] := by
  have h := C5_submit_http_failure 9 10 1 "server error" stage2State
    "Generate View Images" "Generate 3D Model" 120 0 rfl rfl
  exact ⟨h.1, h.2.1, h.2.2.1, h.2.2.2.1⟩

/-- C6: a status poll reporting ERROR for the current generation ends the
pipeline in the error state: the stored message is the joined log lines (or
the fallback, which still contains the empty join), stage 2's step is marked
error, stage 1 stays done, and the busy flag is cleared. -/
theorem C6_poll_error_status (now g : Nat) (su ru : String)
    (logs : Option (List String)) (a : AppState) (n0 n1 : String) (t0 t1 : Nat)
    (hcur : a.generationId = g)
    (hsteps : a.steps = [⟨n0, StepStatus.done, t0⟩, ⟨n1, StepStatus.loading, t1⟩]) :
    segment now g (Phase.awaitPollJson su ru)
        (Resp.pollJson (Except.ok ⟨"ERROR", logs⟩)) a =
      some ⟨throwPath g (logsMsg logs "Polling error.") a, none, []⟩ ∧
    (throwPath g (logsMsg logs "Polling error.") a).error =
      some (logsMsg logs "Polling error.") ∧
    (∃ pre post, logsMsg logs "Polling error." =
      pre ++ String.intercalate "\n" (logs.getD []) ++ post) ∧
    (throwPath g (logsMsg logs "Polling error.") a).steps =
      [⟨n0, StepStatus.done, t0⟩, ⟨n1, StepStatus.error, t1⟩] ∧
    (throwPath g (logsMsg logs "Polling error.") a).isLoading = false := by
  refine ⟨?_, ?_, logsMsg_contains logs _, ?_, ?_⟩
  · simp [segment]
  · rw [throwPath_current _ hcur]
    show (applyCatch (logsMsg logs "Polling error.") a).error = _
    rw [applyCatch_error, if_neg (logsMsg_ne_empty logs _ (by decide))]
  · rw [throwPath_current _ hcur]
    show (applyCatch (logsMsg logs "Polling error.") a).steps = _
    rw [applyCatch_steps, hsteps]
    simp [markLoadingError]
  · rw [throwPath_current _ hcur]

/-- C6 witness: an ERROR poll with log lines "boom" and "bad mesh" during
generation 1 stores the joined message and marks stage 2 error. -/
theorem C6_witness :
    segment 9 1 (Phase.awaitPollJson "su" "ru")
        (Resp.pollJson (Except.ok ⟨"ERROR", some ["boom", "bad mesh"]⟩)) stage2State =
      some ⟨throwPath 1 (logsMsg (some ["boom", "bad mesh"]) "Polling error.")
        stage2State, none, []⟩ ∧
    (throwPath 1 (logsMsg (some ["boom", "bad mesh"]) "Polling error.")
        stage2State).error = some (logsMsg (some ["boom", "bad mesh"]) "Polling error.") ∧
    (∃ pre post, logsMsg (some ["boom", "bad mesh"]) "Polling error." =
      pre ++ String.intercalate "\n" ["boom", "bad mesh"] ++ post) ∧
    (throwPath 1 (logsMsg (some ["boom", "bad mesh"]) "Polling error.")
        stage2State).steps =
      [⟨"Generate View Images", StepStatus.done, 120⟩,
       ⟨"Generate 3D Model", StepStatus.error, 0⟩] := by
  have h := C6_poll_error_status 9 1 "su" "ru" (some ["boom", "bad mesh"]) stage2State
    "Generate View Images" "Generate 3D Model" 120 0 rfl rfl
  exact ⟨h.1, h.2.1, h.2.2.1, h.2.2.2.1⟩

/-- C8 counterexample: the error path does NOT always capture the error
message verbatim: a stage-1 failure whose message is the empty string is
stored as the generic fallback "An unknown error occurred." instead. -/
theorem C8_counterexample :
    segment 9 1 Phase.awaitViews
        (Resp.views (ViewResp.reject "") ViewResp.empty ViewResp.empty) c8State =
      some ⟨{ c8State with
                error := some "An unknown error occurred.",
                steps := [⟨"Generate View Images", StepStatus.error, 0⟩,
                          ⟨"Generate 3D Model", StepStatus.pending, 0⟩],
                generationStart := none, isLoading := false, falCancelUrl := none },
            none, []⟩ ∧
    "An unknown error occurred." ≠ "" := by decide

/-- C8 (amended): on failure of the current generation the catch block
stores the error message verbatim WHEN IT IS NON-EMPTY (an empty message is
replaced by a generic fallback), marks exactly the steps currently loading
as error while leaving all other steps untouched, clears the (nonzero) start
timestamp, and leaves the accumulated generated-image list unchanged. -/
theorem C8_error_path (g : Nat) (msg : String) (a : AppState)
    (hcur : a.generationId = g) (hmsg : msg ≠ "")
    (hstart : a.generationStart ≠ some 0) :
    (throwPath g msg a).error = some msg ∧
    (∀ (i : Nat) (st : Step), a.steps[i]? = some st →
      (throwPath g msg a).steps[i]? =
        some (if st.status = StepStatus.loading then
                { st with status := StepStatus.error }
              else st)) ∧
    (throwPath g msg a).generationStart = none ∧
    (throwPath g msg a).generatedImages = a.generatedImages := by
  rw [throwPath_current _ hcur]
  refine ⟨?_, ?_, ?_, by simp⟩
  · show (applyCatch msg a).error = some msg
    rw [applyCatch_error, if_neg hmsg]
  · intro i st hst
    show (applyCatch msg a).steps[i]? = _
    rw [applyCatch_steps]
    simp [markLoadingError, hst]
  · show (applyCatch msg a).generationStart = none
    rw [applyCatch_generationStart]
    cases hgs : a.generationStart with
    | none => simp [hgs]
    | some t =>
        have htz : t ≠ 0 := fun h0 => hstart (by rw [hgs, h0])
        simp [hgs, htz]

/-- C8 witness: a stage-2 failure with message "boom" during generation 1
stores "boom" verbatim, flips the loading stage-2 step to error, keeps the
done stage-1 step, clears the timestamp and keeps the three generated view
images. -/
theorem C8_witness :
    (throwPath 1 "boom" stage2State).error = some "boom" ∧
    (throwPath 1 "boom" stage2State).steps[0]? =
      some ⟨"Generate View Images", StepStatus.done, 120⟩ ∧
    (throwPath 1 "boom" stage2State).steps[1]? =
      some ⟨"Generate 3D Model", StepStatus.error, 0⟩ ∧
    (throwPath 1 "boom" stage2State).generationStart = none ∧
    (throwPath 1 "boom" stage2State).generatedImages =
      [⟨"Front view", "data:u1"⟩, ⟨"Back view", "data:u2"⟩,
       ⟨"Left side view", "data:u3"⟩] := by
  have h := C8_error_path 1 "boom" stage2State rfl (by decide) (by decide)
  refine ⟨h.1, ?_, ?_, h.2.2.1, h.2.2.2.trans rfl⟩
  · have h0 := h.2.1 0 ⟨"Generate View Images", StepStatus.done, 120⟩ rfl
    simpa using h0
  · have h1 := h.2.1 1 ⟨"Generate 3D Model", StepStatus.loading, 0⟩ rfl
    simpa using h1

/-- C1 counterexample: a `start()` call does NOT always increment the
generation id: with generation 1 busy (a state reached by selecting a file
and starting once), a second `start()` call is ignored — the id stays 1 and
no new run is launched — even though files are present. -/
theorem C1_counterexample :
    Reachable ⟨c1State, [(1, Phase.awaitFileParts)]⟩ ∧
    (startGeneration 7 c1State).1.generationId = c1State.generationId ∧
    (startGeneration 7 c1State).2 = none ∧
    c1State.files ≠ [] := by
  refine ⟨?_, by decide, by decide, by decide⟩
  have h1 : stepFn initSys (Event.fileChange (some ["ref.png"])) =
      some ⟨{ initApp with files := ["ref.png"] }, []⟩ := by decide
  have h2 : stepFn ⟨{ initApp with files := ["ref.png"] }, []⟩ (Event.start 3) =
      some ⟨c1State, [(1, Phase.awaitFileParts)]⟩ := by decide
  exact Reachable.step _ (Reachable.step _ Reachable.init h1) h2

/-- C1 (amended): every `start()` call that actually begins a generation
(files present and not busy) increments the generation id and launches the
coroutine with the new id; and every asynchronous continuation that captured
a superseded generation id performs no observable mutation of the shared
state (steps, generated images, mesh URL, error message, busy flag, total
time) when it resumes, whatever response it resumes with. -/
theorem C1_increment_and_stale_frame :
    (∀ (now : Nat) (a : AppState), a.files ≠ [] → a.isLoading = false →
      (startGeneration now a).1.generationId = a.generationId + 1 ∧
      (startGeneration now a).2 = some (a.generationId + 1, Phase.awaitFileParts)) ∧
    (∀ (now g : Nat) (p : Phase) (r : Resp) (a : AppState) (out : SegOut),
      a.generationId ≠ g → segment now g p r a = some out →
      observable out.state = observable a) := by
  refine ⟨?_, fun now g p r a out hg h => segment_stale_observable hg h⟩
  intro now a hfiles hbusy
  have hguard : ¬ (a.files.length = 0 ∨ a.isLoading = true) := by
    rintro (h0 | h1)
    · exact hfiles (List.length_eq_zero.mp h0)
    · rw [hbusy] at h1
      exact Bool.false_ne_true h1
  unfold startGeneration performGenerationStart
  rw [if_neg (by simpa using hguard)]
  simp [resetStateForGeneration]

/-- C1 witness: from the initial load with one file selected, `start()` at
clock 5 moves the generation id from 0 to 1; and a continuation of
generation 1 resuming its 5-second sleep while generation 2 is live changes
nothing observable. -/
theorem C1_witness :
    ((startGeneration 5 threeFilesState).1.generationId =
        threeFilesState.generationId + 1 ∧
      (startGeneration 5 threeFilesState).2 =
        some (threeFilesState.generationId + 1, Phase.awaitFileParts)) ∧
    (∀ out : SegOut,
      segment 0 1 (Phase.awaitSleep "su" "ru") Resp.sleepDone c3State = some out →
      observable out.state = observable c3State) :=
  ⟨C1_increment_and_stale_frame.1 5 threeFilesState (by decide) (by decide),
   fun out h =>
     C1_increment_and_stale_frame.2 0 1 (Phase.awaitSleep "su" "ru") Resp.sleepDone
       c3State out (by decide) h⟩

/-- C3 counterexample: the poll loop does NOT re-check staleness before
acting on the received response: a superseded continuation (captured id 1,
live id 2) that receives COMPLETED still issues the result fetch — an
additional network request by a superseded generation. -/
theorem C3_counterexample :
    c3State.generationId ≠ 1 ∧
    segment 0 1 (Phase.awaitPollJson "su" "ru")
        (Resp.pollJson (Except.ok ⟨"COMPLETED", none⟩)) c3State =
      some ⟨c3State, some (Phase.awaitResult "su" "ru"), [Request.resultGet "ru"]⟩ := by
  decide

/-- C3 (amended): each poll iteration checks the captured id against the
live id before issuing the next status request, so a superseded continuation
resuming from the inter-poll sleep stops silently with no state change, no
next await and no request; and a superseded continuation acting on a poll
response (or on the fetched result) mutates nothing observable and issues no
further status request — but the result fetch after a COMPLETED response is
issued without a staleness re-check, so one result GET can still be sent by
a superseded generation. -/
theorem C3_poll_staleness :
    (∀ (now g : Nat) (su ru : String) (a : AppState) (out : SegOut),
      a.generationId ≠ g →
      segment now g (Phase.awaitSleep su ru) Resp.sleepDone a = some out →
      out.state = a ∧ out.next = none ∧ out.requests = []) ∧
    (∀ (now g : Nat) (su ru : String) (r : Except String PollBody) (a : AppState)
        (out : SegOut),
      a.generationId ≠ g →
      segment now g (Phase.awaitPollJson su ru) (Resp.pollJson r) a = some out →
      observable out.state = observable a ∧
      (∀ u, Request.statusGet u ∉ out.requests)) ∧
    (∀ (now g : Nat) (su ru : String) (r : Except String ResultBody) (a : AppState)
        (out : SegOut),
      a.generationId ≠ g →
      segment now g (Phase.awaitResultJson su ru) (Resp.resultJson r) a = some out →
      observable out.state = observable a ∧
      (∀ u, Request.statusGet u ∉ out.requests)) := by
  refine ⟨?_, ?_, ?_⟩
  · intro now g su ru a out hg h
    rw [show segment now g (Phase.awaitSleep su ru) Resp.sleepDone a =
        (if a.generationId ≠ g then some ⟨runFinally g a, none, []⟩
         else some ⟨a, some (Phase.awaitPoll su ru), [Request.statusGet su]⟩) from rfl,
      if_pos hg] at h
    cases h
    exact ⟨runFinally_stale hg, rfl, rfl⟩
  · intro now g su ru r a out hg h
    exact ⟨segment_stale_observable hg h, segment_stale_no_statusGet hg h⟩
  · intro now g su ru r a out hg h
    exact ⟨segment_stale_observable hg h, segment_stale_no_statusGet hg h⟩

/-- C3 witness: with live id 2, a sleep resumption captured by generation 1
stops with no state change and no request, and an ERROR poll response for
generation 1 changes nothing observable and issues no status request. -/
theorem C3_witness :
    (∀ out : SegOut,
      segment 0 1 (Phase.awaitSleep "su" "ru") Resp.sleepDone c3State = some out →
      out.state = c3State ∧ out.next = none ∧ out.requests = []) ∧
    (∀ out : SegOut,
      segment 0 1 (Phase.awaitPollJson "su" "ru")
          (Resp.pollJson (Except.ok ⟨"ERROR", some ["boom"]⟩)) c3State = some out →
      observable out.state = observable c3State ∧
      (∀ u, Request.statusGet u ∉ out.requests)) :=
  ⟨fun out h => C3_poll_staleness.1 0 1 "su" "ru" c3State out (by decide) h,
   fun out h => C3_poll_staleness.2.1 0 1 "su" "ru"
     (Except.ok ⟨"ERROR", some ["boom"]⟩) c3State out (by decide) h⟩

theorem C10_witness :
    initSys.app.files.length ≤ 3 ∧
    urlFetchBegin true threeFilesState = (threeFilesState, false) ∧
    (handleFileChange (some ["d.png", "e.png", "f.png", "g.png"])
        threeFilesState).files.length ≤ 3 :=
  ⟨C10_file_cap.1 initSys Reachable.init,
   C10_file_cap.2.1 true threeFilesState (by decide),
   C10_file_cap.2.2 ["d.png", "e.png", "f.png", "g.png"] threeFilesState (by decide)⟩

end M3D

